import Mathlib

/-!
Verification of `brick.go` (yanmingsohu/brick): a shallow embedding of the
template cache (`GetCachedTemplate`), the error-intercepting response wrapper
(`WrapErrorHandler` / `WrapErrorResponse`), the static page resolver
(`StaticPage.ServeHTTP` / `getMimeType`), the request lifecycle wrapper
(`Brick.Service`), the template page handler (`Brick.TemplatePage`) and the
string helper `LastSlice`.

Conventions of the embedding:
* Go `string` / `[]byte` payloads are Lean `String`s (URL paths, sliced by
  byte index in Go, are `List Char`, one `Char` per byte).
* `time.Time` values are `Int`s compared by `=` (Go compares with
  `time.Time.Equal`); the Go zero time is `0`.
* Pointer identity of `*template.Template` objects is modelled by a fresh
  `id : Nat` drawn from a counter in the cache state.
* The filesystem is a function `String → Option FileInfo`: `none` means
  `os.Open` fails; `content = none` means `io.ReadAll` fails after a
  successful open/stat.
* `html/template`'s parser is external library code, abstracted as an oracle
  `parseOk : String → Bool`.
-/

namespace Brick

/-- A compiled template handle (`*template.Template`).  `id` models pointer
identity (fresh for each `template.New` call), `source` the text the handle
was created from. -/
structure Template where
  id : Nat
  source : String
deriving Repr, DecidableEq

/-- Go struct `CachedTemplate` from brick.go: `lastTime time.Time`,
`fileName string`, `template *template.Template` (`none` = nil pointer).
The zero value (fresh `&CachedTemplate{}`) is `⟨0, "", none⟩`. -/
structure CachedTemplate where
  lastTime : Int
  fileName : String
  template : Option Template
deriving Repr, DecidableEq

/-- What `lastModifyTime` + `io.ReadAll` can observe of a file: its
modification time, and its content (`none` when the read fails). -/
structure FileInfo where
  modtime : Int
  content : Option String
deriving Repr, DecidableEq

/-- The error cases of `GetCachedTemplate`: `os.Open` failure, `io.ReadAll`
failure, `template.Parse` failure. -/
inductive TplError
  | openErr
  | readErr
  | parseErr
deriving Repr, DecidableEq

/-- State of `Brick`'s template cache: the `cachedTemplate` map (an
association list) plus a counter supplying fresh pointer identities for
newly created template objects. -/
structure CacheState where
  cache : List (String × CachedTemplate)
  nextId : Nat
deriving Repr, DecidableEq

/-- Lookup in the association list modelling the Go map `cachedTemplate`. -/
def lookupTpl : List (String × CachedTemplate) → String → Option CachedTemplate
  | [], _ => none
  | (k, v) :: rest, key => if k = key then some v else lookupTpl rest key

/-- Insert/replace in the association list modelling the Go map. -/
def insertTpl : List (String × CachedTemplate) → String → CachedTemplate →
    List (String × CachedTemplate)
  | [], key, v => [(key, v)]
  | (k, w) :: rest, key, v =>
    if k = key then (k, v) :: rest else (k, w) :: insertTpl rest key v

/-- Shallow embedding of `Brick.GetCachedTemplate` (brick.go lines 335-365),
with the in-place mutations of the shared `*CachedTemplate` made explicit as
map updates at exactly the points the Go code performs them:

1. `lastModifyTime` opens and stats the file (error `openErr` if absent);
2. the entry is fetched, a zero entry being inserted when missing;
3. if the file's modtime equals the stored `lastTime`, the entry is returned
   as is (cache hit);
4. otherwise the file is read (`readErr` on failure), `cd.template` is
   overwritten with a freshly created template object, the source is parsed
   (`parseErr` on failure, at which point `cd.template` has already been
   replaced but `cd.lastTime` has not), and on success `cd.lastTime` and
   `cd.fileName` are updated and the entry returned. -/
def getCachedTemplate (parseOk : String → Bool) (fs : String → Option FileInfo)
    (st : CacheState) (fileName : String) : CacheState × Except TplError CachedTemplate :=
  match fs fileName with
  | none => (st, Except.error TplError.openErr)
  | some info =>
    let cd := (lookupTpl st.cache fileName).getD ⟨0, "", none⟩
    let st1 : CacheState := ⟨insertTpl st.cache fileName cd, st.nextId⟩
    if info.modtime = cd.lastTime then
      (st1, Except.ok cd)
    else
      match info.content with
      | none => (st1, Except.error TplError.readErr)
      | some buf =>
        let newTpl : Template := ⟨st1.nextId, buf⟩
        let cd2 : CachedTemplate := { cd with template := some newTpl }
        let st2 : CacheState := ⟨insertTpl st1.cache fileName cd2, st1.nextId + 1⟩
        if parseOk buf then
          let cd3 : CachedTemplate :=
            { cd2 with lastTime := info.modtime, fileName := fileName }
          (⟨insertTpl st2.cache fileName cd3, st2.nextId⟩, Except.ok cd3)
        else
          (st2, Except.error TplError.parseErr)

/-- Shallow embedding of `LastSlice` (brick.go lines 821-831) on byte lists:
take the final `maxLen` bytes of `str`, prefixed by `prefix0` when a
truncation happened; pad with zero bytes (from `make([]byte, maxLen)`) when
`str` is shorter than `maxLen`. -/
def lastSlice (str : List Nat) (maxLen : Nat) (prefix0 : List Nat) : List Nat :=
  let l := str.length
  if l > maxLen then
    prefix0 ++ str.drop (l - maxLen + prefix0.length)
  else if l < maxLen then
    str ++ List.replicate (maxLen - l) 0
  else
    str

example : lastSlice [1, 2, 3, 4, 5] 3 [9] = [9, 4, 5] := by decide
example : lastSlice [1, 2] 4 [9] = [1, 2, 0, 0] := by decide
example : lastSlice [1, 2, 3] 3 [9] = [1, 2, 3] := by decide

theorem lookupTpl_insertTpl_self (l : List (String × CachedTemplate))
    (k : String) (v : CachedTemplate) :
    lookupTpl (insertTpl l k v) k = some v := by
  induction l with
  | nil => simp [insertTpl, lookupTpl]
  | cons hd tl ih =>
    obtain ⟨k0, v0⟩ := hd
    by_cases h : k0 = k
    · simp [insertTpl, lookupTpl, h]
    · simp [insertTpl, lookupTpl, h, ih]

theorem lookupTpl_insertTpl_ne (l : List (String × CachedTemplate))
    (k q : String) (v : CachedTemplate) (h : k ≠ q) :
    lookupTpl (insertTpl l k v) q = lookupTpl l q := by
  induction l with
  | nil => simp [insertTpl, lookupTpl, h]
  | cons hd tl ih =>
    obtain ⟨k0, v0⟩ := hd
    by_cases hk : k0 = k
    · subst hk
      simp [insertTpl, lookupTpl, h]
    · simp [insertTpl, lookupTpl, hk, ih]

theorem insertTpl_lookup_self (l : List (String × CachedTemplate))
    (k : String) (v : CachedTemplate) (h : lookupTpl l k = some v) :
    insertTpl l k v = l := by
  induction l with
  | nil => simp [lookupTpl] at h
  | cons hd tl ih =>
    obtain ⟨k0, v0⟩ := hd
    by_cases hk : k0 = k
    · subst hk
      simp [lookupTpl] at h
      simp [insertTpl, h]
    · simp [lookupTpl, hk] at h
      simp [insertTpl, hk, ih h]

theorem insertTpl_insertTpl (l : List (String × CachedTemplate))
    (k : String) (v w : CachedTemplate) :
    insertTpl (insertTpl l k v) k w = insertTpl l k w := by
  induction l with
  | nil => simp [insertTpl]
  | cons hd tl ih =>
    obtain ⟨k0, v0⟩ := hd
    by_cases h : k0 = k
    · simp [insertTpl, h]
    · simp [insertTpl, h, ih]

/-- Branch equation: `os.Open` fails, the call returns the open error and
does not touch the cache. -/
theorem getCachedTemplate_eq_open_err (parseOk : String → Bool)
    (fs : String → Option FileInfo) (st : CacheState) (f : String)
    (hfs : fs f = none) :
    getCachedTemplate parseOk fs st f = (st, Except.error TplError.openErr) := by
  unfold getCachedTemplate
  rw [hfs]

/-- Branch equation: the file's modtime equals the stored `lastTime` of the
entry (the zero entry when the path is not yet cached); the entry is
returned as is. -/
theorem getCachedTemplate_eq_hit (parseOk : String → Bool)
    (fs : String → Option FileInfo) (st : CacheState) (f : String)
    (info : FileInfo) (hfs : fs f = some info)
    (ht : info.modtime = ((lookupTpl st.cache f).getD ⟨0, "", none⟩).lastTime) :
    getCachedTemplate parseOk fs st f
      = (⟨insertTpl st.cache f ((lookupTpl st.cache f).getD ⟨0, "", none⟩), st.nextId⟩,
         Except.ok ((lookupTpl st.cache f).getD ⟨0, "", none⟩)) := by
  unfold getCachedTemplate
  rw [hfs]
  simp only [ht, if_pos]

/-- Branch equation: the modtime changed but `io.ReadAll` fails; the read
error is returned and the entry is left as it was (merely re-inserted). -/
theorem getCachedTemplate_eq_read_err (parseOk : String → Bool)
    (fs : String → Option FileInfo) (st : CacheState) (f : String)
    (info : FileInfo) (hfs : fs f = some info)
    (ht : info.modtime ≠ ((lookupTpl st.cache f).getD ⟨0, "", none⟩).lastTime)
    (hc : info.content = none) :
    getCachedTemplate parseOk fs st f
      = (⟨insertTpl st.cache f ((lookupTpl st.cache f).getD ⟨0, "", none⟩), st.nextId⟩,
         Except.error TplError.readErr) := by
  unfold getCachedTemplate
  rw [hfs]
  simp only [ht, if_neg, if_false, hc]

/-- Branch equation: the modtime changed, the read succeeds and the parse
succeeds; a freshly created template (identity `st.nextId`) compiled from
the current content `buf` is stored together with the new modtime. -/
theorem getCachedTemplate_eq_recompile (parseOk : String → Bool)
    (fs : String → Option FileInfo) (st : CacheState) (f : String)
    (info : FileInfo) (buf : String) (hfs : fs f = some info)
    (ht : info.modtime ≠ ((lookupTpl st.cache f).getD ⟨0, "", none⟩).lastTime)
    (hc : info.content = some buf) (hp : parseOk buf = true) :
    getCachedTemplate parseOk fs st f
      = (⟨insertTpl st.cache f ⟨info.modtime, f, some ⟨st.nextId, buf⟩⟩, st.nextId + 1⟩,
         Except.ok ⟨info.modtime, f, some ⟨st.nextId, buf⟩⟩) := by
  unfold getCachedTemplate
  rw [hfs]
  simp only [ht, if_neg, if_false, hc, hp, if_pos, insertTpl_insertTpl]

/-- Branch equation: the modtime changed, the read succeeds but the parse
fails; the parse error is returned, and the entry left behind holds the
freshly created template object from the new content while `lastTime`
still holds its previous value. -/
theorem getCachedTemplate_eq_parse_err (parseOk : String → Bool)
    (fs : String → Option FileInfo) (st : CacheState) (f : String)
    (info : FileInfo) (buf : String) (hfs : fs f = some info)
    (ht : info.modtime ≠ ((lookupTpl st.cache f).getD ⟨0, "", none⟩).lastTime)
    (hc : info.content = some buf) (hp : parseOk buf = false) :
    getCachedTemplate parseOk fs st f
      = (⟨insertTpl st.cache f
            ⟨((lookupTpl st.cache f).getD ⟨0, "", none⟩).lastTime,
             ((lookupTpl st.cache f).getD ⟨0, "", none⟩).fileName,
             some ⟨st.nextId, buf⟩⟩, st.nextId + 1⟩,
         Except.error TplError.parseErr) := by
  unfold getCachedTemplate
  rw [hfs]
  simp only [ht, if_neg, if_false, hc, hp, Bool.false_eq_true, insertTpl_insertTpl]

/-- Well-formedness of the cache state: every template object stored in the
cache has an identity below the fresh-id counter. -/
def wfState (st : CacheState) : Prop :=
  ∀ f cd tpl, lookupTpl st.cache f = some cd → cd.template = some tpl →
    tpl.id < st.nextId

theorem wfState_insert (st : CacheState) (f : String) (cd : CachedTemplate)
    (n : Nat) (hn : st.nextId ≤ n) (hwf : wfState st)
    (hcd : ∀ tpl, cd.template = some tpl → tpl.id < n) :
    wfState ⟨insertTpl st.cache f cd, n⟩ := by
  intro g cd2 tpl hlk htpl
  by_cases hg : f = g
  · subst hg
    rw [lookupTpl_insertTpl_self] at hlk
    cases hlk
    exact hcd tpl htpl
  · rw [lookupTpl_insertTpl_ne _ _ _ _ hg] at hlk
    exact lt_of_lt_of_le (hwf g cd2 tpl hlk htpl) hn

theorem wfState_getD (st : CacheState) (f : String) (hwf : wfState st) :
    ∀ tpl, ((lookupTpl st.cache f).getD ⟨0, "", none⟩).template = some tpl →
      tpl.id < st.nextId := by
  intro tpl htpl
  cases hlk : lookupTpl st.cache f with
  | none => rw [hlk] at htpl; simp [Option.getD] at htpl
  | some cd0 =>
    rw [hlk] at htpl
    exact hwf f cd0 tpl hlk htpl

/-- Preservation: `GetCachedTemplate` preserves well-formedness of the cache state. -/
theorem getCachedTemplate_wf (parseOk : String → Bool)
    (fs : String → Option FileInfo) (st : CacheState) (f : String)
    (hwf : wfState st) :
    wfState (getCachedTemplate parseOk fs st f).1 := by
  cases hfs : fs f with
  | none => rw [getCachedTemplate_eq_open_err parseOk fs st f hfs]; exact hwf
  | some info =>
    by_cases ht : info.modtime = ((lookupTpl st.cache f).getD ⟨0, "", none⟩).lastTime
    · rw [getCachedTemplate_eq_hit parseOk fs st f info hfs ht]
      exact wfState_insert st f _ st.nextId le_rfl hwf (wfState_getD st f hwf)
    · cases hc : info.content with
      | none =>
        rw [getCachedTemplate_eq_read_err parseOk fs st f info hfs ht hc]
        exact wfState_insert st f _ st.nextId le_rfl hwf (wfState_getD st f hwf)
      | some buf =>
        cases hp : parseOk buf with
        | true =>
          rw [getCachedTemplate_eq_recompile parseOk fs st f info buf hfs ht hc hp]
          refine wfState_insert st f _ (st.nextId + 1) (by omega) hwf ?_
          intro tpl htpl
          cases htpl
          exact Nat.lt_succ_self _
        | false =>
          rw [getCachedTemplate_eq_parse_err parseOk fs st f info buf hfs ht hc hp]
          refine wfState_insert st f _ (st.nextId + 1) (by omega) hwf ?_
          intro tpl htpl
          cases htpl
          exact Nat.lt_succ_self _

/-- A successful call returns an entry whose stored timestamp is the file's
current modification time. -/
theorem getCachedTemplate_ok_lastTime (parseOk : String → Bool)
    (fs : String → Option FileInfo) (st : CacheState) (f : String)
    (info : FileInfo) (cd : CachedTemplate) (hfs : fs f = some info)
    (h : (getCachedTemplate parseOk fs st f).2 = Except.ok cd) :
    cd.lastTime = info.modtime := by
  by_cases ht : info.modtime = ((lookupTpl st.cache f).getD ⟨0, "", none⟩).lastTime
  · rw [getCachedTemplate_eq_hit parseOk fs st f info hfs ht] at h
    cases h
    exact ht.symm
  · cases hc : info.content with
    | none =>
      rw [getCachedTemplate_eq_read_err parseOk fs st f info hfs ht hc] at h
      cases h
    | some buf =>
      cases hp : parseOk buf with
      | true =>
        rw [getCachedTemplate_eq_recompile parseOk fs st f info buf hfs ht hc hp] at h
        cases h
        rfl
      | false =>
        rw [getCachedTemplate_eq_parse_err parseOk fs st f info buf hfs ht hc hp] at h
        cases h

/-- A successful call leaves the returned entry stored in the cache under
its path. -/
theorem getCachedTemplate_ok_lookup (parseOk : String → Bool)
    (fs : String → Option FileInfo) (st : CacheState) (f : String)
    (cd : CachedTemplate)
    (h : (getCachedTemplate parseOk fs st f).2 = Except.ok cd) :
    lookupTpl (getCachedTemplate parseOk fs st f).1.cache f = some cd := by
  cases hfs : fs f with
  | none =>
    rw [getCachedTemplate_eq_open_err parseOk fs st f hfs] at h
    cases h
  | some info =>
    by_cases ht : info.modtime = ((lookupTpl st.cache f).getD ⟨0, "", none⟩).lastTime
    · rw [getCachedTemplate_eq_hit parseOk fs st f info hfs ht] at h ⊢
      cases h
      exact lookupTpl_insertTpl_self _ _ _
    · cases hc : info.content with
      | none =>
        rw [getCachedTemplate_eq_read_err parseOk fs st f info hfs ht hc] at h
        cases h
      | some buf =>
        cases hp : parseOk buf with
        | true =>
          rw [getCachedTemplate_eq_recompile parseOk fs st f info buf hfs ht hc hp] at h ⊢
          cases h
          exact lookupTpl_insertTpl_self _ _ _
        | false =>
          rw [getCachedTemplate_eq_parse_err parseOk fs st f info buf hfs ht hc hp] at h
          cases h

/-- C3: if an entry for the path exists and its stored timestamp equals the
file's current modification timestamp, `GetCachedTemplate` returns that
cached entry unchanged and leaves the cache state untouched (no fresh
template identity is allocated, i.e. no recompilation); hence a second
consecutive call with the unchanged file returns the identical (same
pointer identity) compiled handle. -/
theorem getCachedTemplate_cache_hit (parseOk : String → Bool)
    (fs : String → Option FileInfo) (st : CacheState) (f : String)
    (cd : CachedTemplate) (info : FileInfo)
    (hlk : lookupTpl st.cache f = some cd)
    (hfs : fs f = some info)
    (ht : info.modtime = cd.lastTime) :
    getCachedTemplate parseOk fs st f = (st, Except.ok cd) ∧
    getCachedTemplate parseOk fs (getCachedTemplate parseOk fs st f).1 f
      = (st, Except.ok cd) := by
  have h1 : getCachedTemplate parseOk fs st f = (st, Except.ok cd) := by
    unfold getCachedTemplate
    rw [hfs]
    simp [hlk, insertTpl_lookup_self st.cache f cd hlk, ht]
  refine ⟨h1, ?_⟩
  rw [h1]
  exact h1

theorem getCachedTemplate_cache_hit_witness :
    getCachedTemplate (fun _ => true)
        (fun p => if p = "a" then some ⟨5, some "x"⟩ else none)
        ⟨[("a", ⟨5, "a", some ⟨0, "x"⟩⟩)], 1⟩ "a"
      = (⟨[("a", ⟨5, "a", some ⟨0, "x"⟩⟩)], 1⟩,
         Except.ok ⟨5, "a", some ⟨0, "x"⟩⟩) ∧
    getCachedTemplate (fun _ => true)
        (fun p => if p = "a" then some ⟨5, some "x"⟩ else none)
        (getCachedTemplate (fun _ => true)
          (fun p => if p = "a" then some ⟨5, some "x"⟩ else none)
          ⟨[("a", ⟨5, "a", some ⟨0, "x"⟩⟩)], 1⟩ "a").1 "a"
      = (⟨[("a", ⟨5, "a", some ⟨0, "x"⟩⟩)], 1⟩,
         Except.ok ⟨5, "a", some ⟨0, "x"⟩⟩) :=
  getCachedTemplate_cache_hit (fun _ => true)
    (fun p => if p = "a" then some ⟨5, some "x"⟩ else none)
    ⟨[("a", ⟨5, "a", some ⟨0, "x"⟩⟩)], 1⟩ "a"
    ⟨5, "a", some ⟨0, "x"⟩⟩ ⟨5, some "x"⟩ (by decide) (by decide) (by decide)

/-- Concrete parser oracle: rejects exactly the source text "bad". -/
def cexParseOk : String → Bool := fun s => !(s == "bad")

/-- Concrete filesystem before a change: "a.html" has modtime 1 and content
"good". -/
def cexFs1 : String → Option FileInfo :=
  fun p => if p = "a.html" then some ⟨1, some "good"⟩ else none

/-- Concrete filesystem after a change to unparsable content: "a.html" has
modtime 2 and content "bad". -/
def cexFs2 : String → Option FileInfo :=
  fun p => if p = "a.html" then some ⟨2, some "bad"⟩ else none

/-- Concrete filesystem after a change to parsable content: "a.html" has
modtime 2 and content "fine". -/
def cexFs3 : String → Option FileInfo :=
  fun p => if p = "a.html" then some ⟨2, some "fine"⟩ else none

/-- C1 counterexample: compile "a.html" (modtime 1, content "good")
successfully, then change the file to modtime 2 with unparsable content
"bad" and call again.  The second call fails with a parse error, yet the
cache entry left behind pairs the old timestamp 1 with the freshly created
template object compiled from the new content "bad" — template and
timestamp mix old and new state, so entries are not replaced wholesale. -/
theorem getCachedTemplate_mixed_entry_cex :
    (getCachedTemplate cexParseOk cexFs1 ⟨[], 0⟩ "a.html").2
      = Except.ok ⟨1, "a.html", some ⟨0, "good"⟩⟩ ∧
    (getCachedTemplate cexParseOk cexFs2
        (getCachedTemplate cexParseOk cexFs1 ⟨[], 0⟩ "a.html").1 "a.html").2
      = Except.error TplError.parseErr ∧
    lookupTpl (getCachedTemplate cexParseOk cexFs2
        (getCachedTemplate cexParseOk cexFs1 ⟨[], 0⟩ "a.html").1 "a.html").1.cache
        "a.html"
      = some ⟨1, "a.html", some ⟨1, "bad"⟩⟩ ∧
    ((⟨1, "a.html", some ⟨1, "bad"⟩⟩ : CachedTemplate).template
      ≠ (⟨1, "a.html", some ⟨0, "good"⟩⟩ : CachedTemplate).template) := by
  refine ⟨rfl, rfl, by decide, by decide⟩

/-- C1 (amended): when the file's modtime differs from the stored
timestamp, a call that recompiles successfully replaces the entry wholesale
(new timestamp together with a template freshly compiled from the current
content); but a call that fails to parse leaves behind a mixed entry whose
template is the freshly created one from the new content while the
timestamp keeps its previous value. -/
theorem getCachedTemplate_wholesale_or_mixed (parseOk : String → Bool)
    (fs : String → Option FileInfo) (st : CacheState) (f : String)
    (cd : CachedTemplate) (t : Int) (c : String)
    (hlk : lookupTpl st.cache f = some cd)
    (hfs : fs f = some ⟨t, some c⟩)
    (hne : t ≠ cd.lastTime) :
    (parseOk c = true →
      getCachedTemplate parseOk fs st f
        = (⟨insertTpl st.cache f ⟨t, f, some ⟨st.nextId, c⟩⟩, st.nextId + 1⟩,
           Except.ok ⟨t, f, some ⟨st.nextId, c⟩⟩)) ∧
    (parseOk c = false →
      getCachedTemplate parseOk fs st f
        = (⟨insertTpl st.cache f ⟨cd.lastTime, cd.fileName, some ⟨st.nextId, c⟩⟩,
            st.nextId + 1⟩,
           Except.error TplError.parseErr)) := by
  have hgetD : (lookupTpl st.cache f).getD ⟨0, "", none⟩ = cd := by rw [hlk]; rfl
  have ht : (⟨t, some c⟩ : FileInfo).modtime
      ≠ ((lookupTpl st.cache f).getD ⟨0, "", none⟩).lastTime := by
    rw [hgetD]; exact hne
  constructor
  · intro hp
    exact getCachedTemplate_eq_recompile parseOk fs st f ⟨t, some c⟩ c hfs ht rfl hp
  · intro hp
    have h := getCachedTemplate_eq_parse_err parseOk fs st f ⟨t, some c⟩ c hfs ht rfl hp
    rw [hgetD] at h
    exact h

theorem getCachedTemplate_wholesale_or_mixed_witness :
    (cexParseOk "bad" = true →
      getCachedTemplate cexParseOk cexFs2
          ⟨[("a.html", ⟨1, "a.html", some ⟨0, "good"⟩⟩)], 1⟩ "a.html"
        = (⟨insertTpl [("a.html", ⟨1, "a.html", some ⟨0, "good"⟩⟩)] "a.html"
              ⟨2, "a.html", some ⟨1, "bad"⟩⟩, 2⟩,
           Except.ok ⟨2, "a.html", some ⟨1, "bad"⟩⟩)) ∧
    (cexParseOk "bad" = false →
      getCachedTemplate cexParseOk cexFs2
          ⟨[("a.html", ⟨1, "a.html", some ⟨0, "good"⟩⟩)], 1⟩ "a.html"
        = (⟨insertTpl [("a.html", ⟨1, "a.html", some ⟨0, "good"⟩⟩)] "a.html"
              ⟨1, "a.html", some ⟨1, "bad"⟩⟩, 2⟩,
           Except.error TplError.parseErr)) :=
  getCachedTemplate_wholesale_or_mixed cexParseOk cexFs2
    ⟨[("a.html", ⟨1, "a.html", some ⟨0, "good"⟩⟩)], 1⟩ "a.html"
    ⟨1, "a.html", some ⟨0, "good"⟩⟩ 2 "bad" (by decide) (by decide) (by decide)

/-- C4: if the file's modification time differs between two successful
calls, the second call compiles a new template handle (a fresh identity,
distinct from the first call's handle) from the file's current contents,
and the cache entry afterwards stores the file's new modification time. -/
theorem getCachedTemplate_refresh (parseOk : String → Bool)
    (fs1 fs2 : String → Option FileInfo) (st : CacheState) (f : String)
    (t1 : Int) (c1 : Option String) (t2 : Int) (c2 : String)
    (cd1 : CachedTemplate)
    (hwf : wfState st)
    (hfs1 : fs1 f = some ⟨t1, c1⟩)
    (h1 : (getCachedTemplate parseOk fs1 st f).2 = Except.ok cd1)
    (hfs2 : fs2 f = some ⟨t2, some c2⟩)
    (hne : t1 ≠ t2)
    (hp : parseOk c2 = true) :
    getCachedTemplate parseOk fs2 (getCachedTemplate parseOk fs1 st f).1 f
      = (⟨insertTpl (getCachedTemplate parseOk fs1 st f).1.cache f
            ⟨t2, f, some ⟨(getCachedTemplate parseOk fs1 st f).1.nextId, c2⟩⟩,
          (getCachedTemplate parseOk fs1 st f).1.nextId + 1⟩,
         Except.ok ⟨t2, f, some ⟨(getCachedTemplate parseOk fs1 st f).1.nextId, c2⟩⟩) ∧
    lookupTpl
        (getCachedTemplate parseOk fs2 (getCachedTemplate parseOk fs1 st f).1 f).1.cache f
      = some ⟨t2, f, some ⟨(getCachedTemplate parseOk fs1 st f).1.nextId, c2⟩⟩ ∧
    some (⟨(getCachedTemplate parseOk fs1 st f).1.nextId, c2⟩ : Template)
      ≠ cd1.template := by
  have hlast : cd1.lastTime = t1 :=
    getCachedTemplate_ok_lastTime parseOk fs1 st f ⟨t1, c1⟩ cd1 hfs1 h1
  have hstore : lookupTpl (getCachedTemplate parseOk fs1 st f).1.cache f = some cd1 :=
    getCachedTemplate_ok_lookup parseOk fs1 st f cd1 h1
  have hwf1 : wfState (getCachedTemplate parseOk fs1 st f).1 :=
    getCachedTemplate_wf parseOk fs1 st f hwf
  have hgetD : (lookupTpl (getCachedTemplate parseOk fs1 st f).1.cache f).getD ⟨0, "", none⟩
      = cd1 := by rw [hstore]; rfl
  have ht : (⟨t2, some c2⟩ : FileInfo).modtime
      ≠ ((lookupTpl (getCachedTemplate parseOk fs1 st f).1.cache f).getD
          ⟨0, "", none⟩).lastTime := by
    rw [hgetD, hlast]
    exact Ne.symm hne
  have heq := getCachedTemplate_eq_recompile parseOk fs2
    (getCachedTemplate parseOk fs1 st f).1 f ⟨t2, some c2⟩ c2 hfs2 ht rfl hp
  refine ⟨heq, ?_, ?_⟩
  · rw [heq]
    exact lookupTpl_insertTpl_self _ _ _
  · cases hcd1t : cd1.template with
    | none => simp
    | some tpl =>
      have hid : tpl.id < (getCachedTemplate parseOk fs1 st f).1.nextId :=
        hwf1 f cd1 tpl hstore hcd1t
      intro hcontra
      rw [Option.some_inj] at hcontra
      rw [← hcontra] at hid
      exact absurd hid (by simp)

theorem getCachedTemplate_refresh_witness :
    getCachedTemplate cexParseOk cexFs3
        (getCachedTemplate cexParseOk cexFs1 ⟨[], 0⟩ "a.html").1 "a.html"
      = (⟨insertTpl (getCachedTemplate cexParseOk cexFs1 ⟨[], 0⟩ "a.html").1.cache "a.html"
            ⟨2, "a.html",
             some ⟨(getCachedTemplate cexParseOk cexFs1 ⟨[], 0⟩ "a.html").1.nextId, "fine"⟩⟩,
          (getCachedTemplate cexParseOk cexFs1 ⟨[], 0⟩ "a.html").1.nextId + 1⟩,
         Except.ok ⟨2, "a.html",
           some ⟨(getCachedTemplate cexParseOk cexFs1 ⟨[], 0⟩ "a.html").1.nextId, "fine"⟩⟩) ∧
    lookupTpl (getCachedTemplate cexParseOk cexFs3
        (getCachedTemplate cexParseOk cexFs1 ⟨[], 0⟩ "a.html").1 "a.html").1.cache "a.html"
      = some ⟨2, "a.html",
          some ⟨(getCachedTemplate cexParseOk cexFs1 ⟨[], 0⟩ "a.html").1.nextId, "fine"⟩⟩ ∧
    some (⟨(getCachedTemplate cexParseOk cexFs1 ⟨[], 0⟩ "a.html").1.nextId, "fine"⟩ : Template)
      ≠ (⟨1, "a.html", some ⟨0, "good"⟩⟩ : CachedTemplate).template :=
  getCachedTemplate_refresh cexParseOk cexFs1 cexFs3 ⟨[], 0⟩ "a.html"
    1 (some "good") 2 "fine" ⟨1, "a.html", some ⟨0, "good"⟩⟩
    (by intro f cd tpl h; simp [lookupTpl] at h)
    (by decide) rfl (by decide) (by decide) (by decide)

/-- C10: for every byte string `str`, every `maxLen` and every `prefix0`
with `prefix0.length ≤ maxLen`, `LastSlice` returns a string of length
exactly `maxLen`; when `str` is longer than `maxLen` the result is
`prefix0` followed by the last `maxLen - prefix0.length` bytes of `str`,
and when `str` is shorter the result is `str` padded with zero bytes. -/
theorem lastSlice_spec (str : List Nat) (maxLen : Nat) (prefix0 : List Nat)
    (hp : prefix0.length ≤ maxLen) :
    (lastSlice str maxLen prefix0).length = maxLen ∧
    (str.length > maxLen →
      lastSlice str maxLen prefix0
        = prefix0 ++ str.drop (str.length - (maxLen - prefix0.length))) ∧
    (str.length < maxLen →
      lastSlice str maxLen prefix0 = str ++ List.replicate (maxLen - str.length) 0) := by
  unfold lastSlice
  by_cases h1 : str.length > maxLen
  · simp only [h1, if_pos]
    refine ⟨?_, fun _ => ?_, fun h2 => absurd h1 (by omega)⟩
    · rw [List.length_append, List.length_drop]
      omega
    · have : str.length - maxLen + prefix0.length
          = str.length - (maxLen - prefix0.length) := by omega
      rw [this]
  · by_cases h2 : str.length < maxLen
    · rw [if_neg h1, if_pos h2]
      refine ⟨?_, fun h3 => absurd h3 h1, fun _ => rfl⟩
      rw [List.length_append, List.length_replicate]
      omega
    · rw [if_neg h1, if_neg h2]
      exact ⟨by omega, fun h3 => absurd h3 h1, fun h3 => absurd h3 h2⟩

/-- Events observable at the real response sink (and, for the later
handler models, in the handler pipeline): header manipulation, status
announcement, body writes, delegation to the filesystem handler, the user
callback of a template page running, and template execution. -/
inductive HttpEvent
  | addHeader (key value : String)
  | setHeader (key value : String)
  | writeHeader (code : Nat)
  | write (body : String)
  | serveLocalFS (dir : String) (urlPath : List Char)
  | callbackRun
  | execTemplate (tpl : Option Template) (data : String)
deriving Repr, DecidableEq

/-- Go struct `WrapErrorResponse` (brick.go lines 472-477): `haserr = 0`
means no error status was intercepted; `errmsg` buffers the error body. -/
structure WrapErrorResponse where
  haserr : Nat
  errmsg : String
deriving Repr, DecidableEq

/-- Method `WrapErrorResponse.WriteHeader` (lines 480-486): status codes ≥ 400 are
recorded in `haserr` instead of being forwarded; lower codes are forwarded
to the real sink. -/
def WrapErrorResponse.writeHeader (w : WrapErrorResponse) (statusCode : Nat) :
    WrapErrorResponse × List HttpEvent :=
  if statusCode ≥ 400 then ({ w with haserr := statusCode }, [])
  else (w, [HttpEvent.writeHeader statusCode])

/-- Method `WrapErrorResponse.Write` (lines 489-495): once an error status has
been intercepted, body bytes are appended to `errmsg` instead of being
forwarded to the real sink. -/
def WrapErrorResponse.write (w : WrapErrorResponse) (b : String) :
    WrapErrorResponse × List HttpEvent :=
  if w.haserr ≠ 0 then ({ w with errmsg := w.errmsg ++ b }, [])
  else (w, [HttpEvent.write b])

/-- One interaction of a wrapped handler with its response writer. -/
inductive RespAction
  | writeHeader (code : Nat)
  | write (body : String)
deriving Repr, DecidableEq

/-- Run a wrapped handler, given as its sequence of response-writer
interactions, against a `WrapErrorResponse`; returns the final wrapper
state and the events forwarded to the real sink. -/
def runActions : WrapErrorResponse → List RespAction → WrapErrorResponse × List HttpEvent
  | w, [] => (w, [])
  | w, RespAction.writeHeader c :: rest =>
    let r := w.writeHeader c
    let rr := runActions r.1 rest
    (rr.1, r.2 ++ rr.2)
  | w, RespAction.write b :: rest =>
    let r := w.write b
    let rr := runActions r.1 rest
    (rr.1, r.2 ++ rr.2)

/-- Go struct `HttpError` (lines 38-41): an error value carrying an http
status code. -/
structure HttpError where
  code : Nat
  msg : String
deriving Repr, DecidableEq

/-- Concatenation of a sequence of written body chunks. -/
def concatStrs : List String → String
  | [] => ""
  | s :: rest => s ++ concatStrs rest

/-- Shallow embedding of `WrapErrorHandler.ServeHTTP` (lines 459-468): run
the wrapped handler against a fresh `WrapErrorResponse`; afterwards, when
an error status was intercepted, invoke the unified error handler exactly
once with an `HttpError` built from the intercepted code and the buffered
message.  Returns the events forwarded to the real sink and the
error-handler invocation (`none` = not invoked). -/
def wrapErrorHandlerServeHTTP (actions : List RespAction) :
    List HttpEvent × Option HttpError :=
  let r := runActions ⟨0, ""⟩ actions
  if r.1.haserr ≠ 0 then (r.2, some ⟨r.1.haserr, r.1.errmsg⟩)
  else (r.2, none)

theorem runActions_all_buffered (c : Nat) (hc : c ≠ 0) (bodies : List String) :
    ∀ m : String, runActions ⟨c, m⟩ (bodies.map RespAction.write)
      = (⟨c, m ++ concatStrs bodies⟩, []) := by
  induction bodies with
  | nil => intro m; simp [runActions, concatStrs]
  | cons b bs ih =>
    intro m
    simp only [List.map_cons, runActions, WrapErrorResponse.write, hc,
      ne_eq, not_false_eq_true, if_true, if_pos, ih (m ++ b), concatStrs,
      List.append_nil, List.nil_append]
    rw [String.append_assoc]

/-- C2: a wrapped handler behind `WrapErrorHandler` that announces status
404 and then writes body chunks forwards nothing to the real sink; after
it completes, the unified error handler is invoked exactly once with an
`HttpError` whose code is 404 and whose message is the concatenation of
all chunks written after the error status. -/
theorem wrapErrorHandler_intercepts_404 (bodies : List String) :
    wrapErrorHandlerServeHTTP
        (RespAction.writeHeader 404 :: bodies.map RespAction.write)
      = ([], some ⟨404, concatStrs bodies⟩) := by
  unfold wrapErrorHandlerServeHTTP
  simp only [runActions, WrapErrorResponse.writeHeader]
  rw [if_pos (by omega : 404 ≥ 400)]
  simp only [runActions_all_buffered 404 (by omega) bodies ""]
  simp

/-- Go `filepath.Ext`: the suffix beginning at the final dot in the final
slash-separated element of the path; empty when there is no dot.  Computed
by scanning the reversed character list, accumulating the characters after
the candidate dot. -/
def goExtAux : List Char → List Char → String
  | _, [] => ""
  | acc, c :: rest =>
    if c = '/' then ""
    else if c = '.' then String.mk (c :: acc)
    else goExtAux (c :: acc) rest

/-- Go `filepath.Ext` on a path given as a character list. -/
def goFilepathExt (path : List Char) : String := goExtAux [] path.reverse

example : goFilepathExt "style.css".toList = ".css" := by decide
example : goFilepathExt "a.b/cde".toList = "" := by decide
example : goFilepathExt "a/b.min.js".toList = ".js" := by decide

/-- Function `getMimeType` (brick.go lines 807-813), with the stdlib table
`mime.TypeByExtension` abstracted as a lookup function (`none` models Go's
empty-string answer for an unknown extension): the content type derived
from the file extension, defaulting to `application/octet-stream`. -/
def getMimeType (typeByExtension : String → Option String)
    (fileName : List Char) : String :=
  match typeByExtension (goFilepathExt fileName) with
  | some ctype => ctype
  | none => "application/octet-stream"

/-- Lookup in the `StaticResource` map (`map[string][]byte`), keys as
character lists, payloads as byte strings. -/
def lookupRes : List (List Char × String) → List Char → Option String
  | [], _ => none
  | (k, v) :: rest, key => if k = key then some v else lookupRes rest key

/-- Go struct `StaticPage` (lines 85-93): route prefix, local directory,
optional precompiled resource mapping (`none` = nil map), and the
configured cache seconds.  The embedded logger and debug flag only drive
logging and are omitted. -/
structure StaticPage where
  BaseUrl : List Char
  FilePath : String
  mapping : Option (List (List Char × String))
  cacheSec : Int

/-- Shallow embedding of `StaticPage.ServeHTTP` (lines 763-789): strip the
route's base prefix from the request path to obtain the logical key; if a
mapping is configured and contains the key, serve the stored payload with
the pre-compression headers and status 200; otherwise add a no-cache
header and delegate to the filesystem handler rooted at `FilePath`. -/
def StaticPage.ServeHTTP (typeByExtension : String → Option String)
    (p : StaticPage) (urlPath : List Char) : List HttpEvent :=
  let fileName := urlPath.drop p.BaseUrl.length
  match p.mapping with
  | none =>
    [HttpEvent.addHeader "Cache-Control" "no-cache",
     HttpEvent.serveLocalFS p.FilePath urlPath]
  | some m =>
    match lookupRes m fileName with
    | some content =>
      [HttpEvent.addHeader "Cache-Control" ("public, max-age=" ++ toString p.cacheSec),
       HttpEvent.setHeader "Content-Type" (getMimeType typeByExtension fileName),
       HttpEvent.setHeader "Content-Encoding" "gzip",
       HttpEvent.writeHeader 200,
       HttpEvent.write content]
    | none =>
      [HttpEvent.addHeader "Cache-Control" "no-cache",
       HttpEvent.serveLocalFS p.FilePath urlPath]

/-- C5: a static-route request whose logical key (the request path with
the base prefix stripped) is present in the configured mapping is answered
with status 200 and exactly the stored payload, headers
`Content-Encoding: gzip`, `Content-Type` derived from the file extension
(`application/octet-stream` when unknown) and
`Cache-Control: public, max-age=<cacheSec>`, and never delegates to the
filesystem handler. -/
theorem staticPage_mapping_hit (typeByExtension : String → Option String)
    (p : StaticPage) (m : List (List Char × String)) (urlPath key : List Char)
    (content : String)
    (hm : p.mapping = some m)
    (hurl : urlPath = p.BaseUrl ++ key)
    (hk : lookupRes m key = some content) :
    p.ServeHTTP typeByExtension urlPath
      = [HttpEvent.addHeader "Cache-Control" ("public, max-age=" ++ toString p.cacheSec),
         HttpEvent.setHeader "Content-Type" (getMimeType typeByExtension key),
         HttpEvent.setHeader "Content-Encoding" "gzip",
         HttpEvent.writeHeader 200,
         HttpEvent.write content] ∧
    (∀ d q, HttpEvent.serveLocalFS d q ∉ p.ServeHTTP typeByExtension urlPath) ∧
    (typeByExtension (goFilepathExt key) = none →
      getMimeType typeByExtension key = "application/octet-stream") := by
  subst hurl
  have hdrop : (p.BaseUrl ++ key).drop p.BaseUrl.length = key := List.drop_left _ _
  have heq : p.ServeHTTP typeByExtension (p.BaseUrl ++ key)
      = [HttpEvent.addHeader "Cache-Control" ("public, max-age=" ++ toString p.cacheSec),
         HttpEvent.setHeader "Content-Type" (getMimeType typeByExtension key),
         HttpEvent.setHeader "Content-Encoding" "gzip",
         HttpEvent.writeHeader 200,
         HttpEvent.write content] := by
    unfold StaticPage.ServeHTTP
    rw [hm]
    simp only [hdrop, hk]
  refine ⟨heq, ?_, ?_⟩
  · intro d q hmem
    rw [heq] at hmem
    simp at hmem
  · intro hnone
    unfold getMimeType
    rw [hnone]

theorem staticPage_mapping_hit_witness :
    (⟨"/assets/".toList, "www", some [("abc".toList, "PAYLOAD")], 60⟩ : StaticPage).ServeHTTP
        (fun _ => none) ("/assets/".toList ++ "abc".toList)
      = [HttpEvent.addHeader "Cache-Control" ("public, max-age=" ++ toString (60 : Int)),
         HttpEvent.setHeader "Content-Type" (getMimeType (fun _ => none) "abc".toList),
         HttpEvent.setHeader "Content-Encoding" "gzip",
         HttpEvent.writeHeader 200,
         HttpEvent.write "PAYLOAD"] ∧
    (∀ d q, HttpEvent.serveLocalFS d q ∉
      (⟨"/assets/".toList, "www", some [("abc".toList, "PAYLOAD")], 60⟩ : StaticPage).ServeHTTP
        (fun _ => none) ("/assets/".toList ++ "abc".toList)) ∧
    ((fun (_ : String) => (none : Option String)) (goFilepathExt "abc".toList) = none →
      getMimeType (fun _ => none) "abc".toList = "application/octet-stream") :=
  staticPage_mapping_hit (fun _ => none)
    ⟨"/assets/".toList, "www", some [("abc".toList, "PAYLOAD")], 60⟩
    [("abc".toList, "PAYLOAD")] ("/assets/".toList ++ "abc".toList) "abc".toList
    "PAYLOAD" rfl rfl (by decide)

/-- C6: a static-route request whose logical key is absent from the
mapping, or for which no mapping is configured, is answered by adding a
`Cache-Control: no-cache` header and delegating to the filesystem handler
rooted at the configured local directory. -/
theorem staticPage_fallthrough (typeByExtension : String → Option String)
    (p : StaticPage) (urlPath : List Char)
    (h : p.mapping = none ∨
      ∃ m, p.mapping = some m ∧
        lookupRes m (urlPath.drop p.BaseUrl.length) = none) :
    p.ServeHTTP typeByExtension urlPath
      = [HttpEvent.addHeader "Cache-Control" "no-cache",
         HttpEvent.serveLocalFS p.FilePath urlPath] := by
  cases h with
  | inl hnone =>
    unfold StaticPage.ServeHTTP
    rw [hnone]
  | inr hsome =>
    obtain ⟨m, hm, hlk⟩ := hsome
    unfold StaticPage.ServeHTTP
    rw [hm]
    simp only [hlk]

theorem staticPage_fallthrough_witness :
    (⟨"/assets/".toList, "www", some [("abc".toList, "PAYLOAD")], 60⟩ : StaticPage).ServeHTTP
        (fun _ => none) "/assets/missing".toList
      = [HttpEvent.addHeader "Cache-Control" "no-cache",
         HttpEvent.serveLocalFS "www" "/assets/missing".toList] :=
  staticPage_fallthrough (fun _ => none)
    ⟨"/assets/".toList, "www", some [("abc".toList, "PAYLOAD")], 60⟩
    "/assets/missing".toList
    (Or.inr ⟨[("abc".toList, "PAYLOAD")], rfl, by decide⟩)

/-- Outcome of one `HttpHandler` invocation: normal return, return of a
non-nil error value, or a panic raised during execution (e.g. the
parameter accessors `GetI`/`GetF` calling `log.Panicln`). -/
inductive Outcome
  | ok
  | fail (e : String)
  | panicked (e : String)
deriving Repr, DecidableEq

/-- Externally visible behaviour of one handler invocation: the response
events it emits, the closers it registers through `Http.CloseOnEnd` (in
registration order), and how it terminates.  For a panicking handler,
`events` and `regs` are those produced before the panic. -/
structure HandlerRun where
  events : List HttpEvent
  regs : List Nat
  outcome : Outcome
deriving Repr, DecidableEq

/-- Observable result of the per-request closure `Brick.Service` installs:
the events reaching the response, the arguments of every invocation of the
unified error handler (in order), the closers whose `Close` ran (in
order), and whether the panic escaped the serving loop (`recover` makes
this structurally false: the deferred function intercepts every panic). -/
structure ServiceResult where
  events : List HttpEvent
  errCalls : List String
  closed : List Nat
  crashed : Bool
deriving Repr, DecidableEq

/-- Function `defaultErrorHandle` (brick.go lines 315-320): status 500, a minimal
HTML fragment, the error text (the log line is omitted). -/
def defaultErrorHandle (err : String) : List HttpEvent :=
  [HttpEvent.writeHeader 500, HttpEvent.write "<p>Service Error</p>",
   HttpEvent.write ("<p>" ++ err ++ "</p>")]

/-- Method `Http.CloseOnEnd` (lines 663-665): append a closer to the per-request
context. -/
def closeOnEnd (c : List Nat) (x : Nat) : List Nat := c ++ [x]

/-- Method `Http.shutdown` (lines 668-672): call `Close` on the registered
closers in list order; returns that call order. -/
def shutdownOrder (c : List Nat) : List Nat := c

/-- The closer list built by a handler registering `rs` one at a time via
`CloseOnEnd`, starting from the fresh context's empty list. -/
def registerAll (rs : List Nat) : List Nat := rs.foldl closeOnEnd []

/-- Shallow embedding of the closure registered by `Brick.Service` (lines
286-311): add the `no-store` header, run the handler; when it returns an
error, invoke the error handler, then run `hd.shutdown()`; when it
panics, the deferred `recover` intercepts it and invokes the error
handler — `hd.shutdown()` is never reached; on normal completion run
`hd.shutdown()`.  `eh` gives the events the configured error handler
writes for an error value. -/
def serviceRun (eh : String → List HttpEvent) (h : HandlerRun) : ServiceResult :=
  match h.outcome with
  | Outcome.ok =>
    ⟨HttpEvent.addHeader "Cache-Control" "no-store" :: h.events,
     [], shutdownOrder (registerAll h.regs), false⟩
  | Outcome.fail e =>
    ⟨(HttpEvent.addHeader "Cache-Control" "no-store" :: h.events) ++ eh e,
     [e], shutdownOrder (registerAll h.regs), false⟩
  | Outcome.panicked e =>
    ⟨(HttpEvent.addHeader "Cache-Control" "no-store" :: h.events) ++ eh e,
     [e], [], false⟩

/-- The status the real sink commits for a sequence of response events:
the first explicit `WriteHeader`, or implicitly 200 at the first body
write (net/http semantics); later `WriteHeader` calls are ignored. -/
def respStatus : List HttpEvent → Option Nat
  | [] => none
  | HttpEvent.writeHeader c :: _ => some c
  | HttpEvent.write _ :: _ => some 200
  | _ :: rest => respStatus rest

theorem registerAll_foldl (rs acc : List Nat) :
    rs.foldl closeOnEnd acc = acc ++ rs := by
  induction rs generalizing acc with
  | nil => simp
  | cons r rest ih => simp [closeOnEnd, ih (acc ++ [r])]

theorem registerAll_eq (rs : List Nat) : registerAll rs = rs := by
  unfold registerAll
  rw [registerAll_foldl]
  simp

/-- C7 counterexample: a handler that writes body bytes (committing the
implicit status 200) before returning an error.  The unified error handler
is invoked exactly once and the process does not crash, but the response
status is 200 — a 2xx status — because the default error handler's
`WriteHeader(500)` comes after the response was already committed. -/
theorem service_error_status_cex :
    (serviceRun defaultErrorHandle
        ⟨[HttpEvent.write "hi"], [], Outcome.fail "boom"⟩).errCalls = ["boom"] ∧
    (serviceRun defaultErrorHandle
        ⟨[HttpEvent.write "hi"], [], Outcome.fail "boom"⟩).crashed = false ∧
    respStatus (serviceRun defaultErrorHandle
        ⟨[HttpEvent.write "hi"], [], Outcome.fail "boom"⟩).events = some 200 :=
  ⟨rfl, rfl, rfl⟩

/-- C7 (amended): whenever the handler panics or returns a non-nil error,
the configured unified error handler is invoked exactly once with the
panic/error value and the serving process does not crash; moreover,
provided the handler wrote nothing to the response before failing, the
default error handler commits status 500, a non-2xx status. -/
theorem service_error_dispatch (eh : String → List HttpEvent)
    (pre : List HttpEvent) (regs : List Nat) (e : String) (o : Outcome)
    (ho : o = Outcome.fail e ∨ o = Outcome.panicked e) :
    (serviceRun eh ⟨pre, regs, o⟩).errCalls = [e] ∧
    (serviceRun eh ⟨pre, regs, o⟩).crashed = false ∧
    (pre = [] →
      respStatus (serviceRun defaultErrorHandle ⟨pre, regs, o⟩).events = some 500) := by
  cases ho with
  | inl hfail =>
    subst hfail
    refine ⟨rfl, rfl, ?_⟩
    intro hpre
    subst hpre
    rfl
  | inr hpanic =>
    subst hpanic
    refine ⟨rfl, rfl, ?_⟩
    intro hpre
    subst hpre
    rfl

theorem service_error_dispatch_witness :
    (serviceRun defaultErrorHandle ⟨[], [7], Outcome.fail "oops"⟩).errCalls = ["oops"] ∧
    (serviceRun defaultErrorHandle ⟨[], [7], Outcome.fail "oops"⟩).crashed = false ∧
    (([] : List HttpEvent) = [] →
      respStatus (serviceRun defaultErrorHandle ⟨[], [7], Outcome.fail "oops"⟩).events
        = some 500) :=
  service_error_dispatch defaultErrorHandle [] [7] "oops" (Outcome.fail "oops")
    (Or.inl rfl)

/-- C8: the closers a handler registers through `CloseOnEnd` run exactly
once each, in registration order, after the handler returns — both on
normal completion and when the handler returns an error — and do not run
at all when a panic is intercepted by the recovery barrier. -/
theorem service_closers (eh : String → List HttpEvent)
    (pre : List HttpEvent) (regs : List Nat) (e : String) :
    (serviceRun eh ⟨pre, regs, Outcome.ok⟩).closed = regs ∧
    (serviceRun eh ⟨pre, regs, Outcome.fail e⟩).closed = regs ∧
    (serviceRun eh ⟨pre, regs, Outcome.panicked e⟩).closed = [] := by
  refine ⟨?_, ?_, rfl⟩ <;>
    simp [serviceRun, shutdownOrder, registerAll_eq]

/-- The error cases a template page handler can return: a template
fetch/compile error or the user callback's error. -/
inductive PageError
  | tplErr (e : TplError)
  | cbErr (e : String)
deriving Repr, DecidableEq

/-- Shallow embedding of the handler returned by `Brick.TemplatePage`
(brick.go lines 373-405): add the caching and content-type headers; fetch
the (re)compiled template through `GetCachedTemplate` (on failure write
"Parse Template Error<br/>" and return the error); invoke the user
data-producing callback (on error return it); then, if the request method
is HEAD, answer 204 with no body and without executing the template;
otherwise execute the compiled template against the callback's data. -/
def templatePage (parseOk : String → Bool) (fs : String → Option FileInfo)
    (staticCacheSec : Int) (templateFile : String)
    (cb : Except String String) (method : String) (st : CacheState) :
    CacheState × List HttpEvent × Option PageError :=
  match getCachedTemplate parseOk fs st templateFile with
  | (st1, Except.error e) =>
    (st1, [HttpEvent.addHeader "Cache-Control" "private",
           HttpEvent.addHeader "Cache-Control" ("max-age=" ++ toString staticCacheSec),
           HttpEvent.setHeader "Content-Type" "text/html; charset=utf-8",
           HttpEvent.write "Parse Template Error<br/>"],
     some (PageError.tplErr e))
  | (st1, Except.ok ct) =>
    match cb with
    | Except.error e =>
      (st1, [HttpEvent.addHeader "Cache-Control" "private",
             HttpEvent.addHeader "Cache-Control" ("max-age=" ++ toString staticCacheSec),
             HttpEvent.setHeader "Content-Type" "text/html; charset=utf-8",
             HttpEvent.callbackRun],
       some (PageError.cbErr e))
    | Except.ok data =>
      if method = "HEAD" then
        (st1, [HttpEvent.addHeader "Cache-Control" "private",
               HttpEvent.addHeader "Cache-Control" ("max-age=" ++ toString staticCacheSec),
               HttpEvent.setHeader "Content-Type" "text/html; charset=utf-8",
               HttpEvent.callbackRun,
               HttpEvent.writeHeader 204],
         none)
      else
        (st1, [HttpEvent.addHeader "Cache-Control" "private",
               HttpEvent.addHeader "Cache-Control" ("max-age=" ++ toString staticCacheSec),
               HttpEvent.setHeader "Content-Type" "text/html; charset=utf-8",
               HttpEvent.callbackRun,
               HttpEvent.execTemplate ct.template data],
         none)

/-- C9: for a template page request whose user callback succeeds, a HEAD
request is answered with status 204 and no body, the compiled template is
never executed, and the callback still runs (the `callbackRun` event
precedes the method check's 204 answer in the trace). -/
theorem templatePage_head_no_render (parseOk : String → Bool)
    (fs : String → Option FileInfo) (staticCacheSec : Int)
    (templateFile : String) (data : String) (st st1 : CacheState)
    (ct : CachedTemplate)
    (hfetch : getCachedTemplate parseOk fs st templateFile = (st1, Except.ok ct)) :
    templatePage parseOk fs staticCacheSec templateFile (Except.ok data) "HEAD" st
      = (st1, [HttpEvent.addHeader "Cache-Control" "private",
               HttpEvent.addHeader "Cache-Control" ("max-age=" ++ toString staticCacheSec),
               HttpEvent.setHeader "Content-Type" "text/html; charset=utf-8",
               HttpEvent.callbackRun,
               HttpEvent.writeHeader 204],
         none) ∧
    (∀ tpl d, HttpEvent.execTemplate tpl d ∉
      (templatePage parseOk fs staticCacheSec templateFile
        (Except.ok data) "HEAD" st).2.1) ∧
    (∀ s, HttpEvent.write s ∉
      (templatePage parseOk fs staticCacheSec templateFile
        (Except.ok data) "HEAD" st).2.1) := by
  have heq : templatePage parseOk fs staticCacheSec templateFile
      (Except.ok data) "HEAD" st
      = (st1, [HttpEvent.addHeader "Cache-Control" "private",
               HttpEvent.addHeader "Cache-Control" ("max-age=" ++ toString staticCacheSec),
               HttpEvent.setHeader "Content-Type" "text/html; charset=utf-8",
               HttpEvent.callbackRun,
               HttpEvent.writeHeader 204],
         none) := by
    unfold templatePage
    rw [hfetch]
    rfl
  refine ⟨heq, ?_, ?_⟩
  · intro tpl d hmem
    rw [heq] at hmem
    simp at hmem
  · intro s hmem
    rw [heq] at hmem
    simp at hmem

theorem templatePage_head_no_render_witness :
    templatePage cexParseOk cexFs1 30 "a.html" (Except.ok "DATA") "HEAD" ⟨[], 0⟩
      = (⟨[("a.html", ⟨1, "a.html", some ⟨0, "good"⟩⟩)], 1⟩,
         [HttpEvent.addHeader "Cache-Control" "private",
          HttpEvent.addHeader "Cache-Control" ("max-age=" ++ toString (30 : Int)),
          HttpEvent.setHeader "Content-Type" "text/html; charset=utf-8",
          HttpEvent.callbackRun,
          HttpEvent.writeHeader 204],
         none) ∧
    (∀ tpl d, HttpEvent.execTemplate tpl d ∉
      (templatePage cexParseOk cexFs1 30 "a.html"
        (Except.ok "DATA") "HEAD" ⟨[], 0⟩).2.1) ∧
    (∀ s, HttpEvent.write s ∉
      (templatePage cexParseOk cexFs1 30 "a.html"
        (Except.ok "DATA") "HEAD" ⟨[], 0⟩).2.1) :=
  templatePage_head_no_render cexParseOk cexFs1 30 "a.html" "DATA" ⟨[], 0⟩
    ⟨[("a.html", ⟨1, "a.html", some ⟨0, "good"⟩⟩)], 1⟩
    ⟨1, "a.html", some ⟨0, "good"⟩⟩ rfl

theorem lastSlice_spec_witness :
    ((lastSlice [1, 2, 3, 4, 5] 3 [9]).length = 3 ∧
      ([1, 2, 3, 4, 5] : List Nat).length > 3 →
        lastSlice [1, 2, 3, 4, 5] 3 [9]
          = [9] ++ ([1, 2, 3, 4, 5] : List Nat).drop (5 - (3 - 1))) ∧
    (([1, 2, 3, 4, 5] : List Nat).length < 3 →
      lastSlice [1, 2, 3, 4, 5] 3 [9]
        = [1, 2, 3, 4, 5] ++ List.replicate (3 - 5) 0) := by
  have h := lastSlice_spec [1, 2, 3, 4, 5] 3 [9] (by decide)
  exact ⟨fun _ => h.2.1 (by decide), h.2.2⟩

end Brick
